import Mathlib

/-!
Verification of the `sound_galaxy` audio-visualizer core.

The Rust source (src/lib.rs, src/main.rs) is shallowly embedded here.
All `f32` arithmetic is modelled as exact rational arithmetic over `ℚ`:
the spec reasons about the numeric algorithms (clamps, wraparound,
layout) in exact decimal terms, and none of the claims under scrutiny
hinges on rounding of single-precision floats.

Randomness (`rand::random::<f32>()`, which draws uniformly from `[0,1)`)
is modelled by passing the drawn values as explicit parameters.

External GPU writes performed by listeners (`set_ellipse_buffer`,
`resolution_buffer.set`) are modelled by returning the invocation records
(the arguments the listener was called with), so that "the listener runs
exactly once with these arguments" is a statement about a returned list.
-/

namespace SoundGalaxy

/-- Model of `src/lib.rs`: `pub struct Particle { x, y, r, g, b, diameter : f32 }`. -/
structure Particle where
  x : ℚ
  y : ℚ
  r : ℚ
  g : ℚ
  b : ℚ
  diameter : ℚ
deriving DecidableEq, Repr

/-- Model of `src/lib.rs`: `Particle::new(x)`. The three-plus-one random draws
`rand::random::<f32>()` (each uniform in `[0,1)`) are passed explicitly as
`uy ur ug ub`. Mirrors:
`Self { x, y: rand*2.0-1.0, r: rand, g: rand, b: rand, diameter: 0.0 }`. -/
def Particle.new (x uy ur ug ub : ℚ) : Particle :=
  { x := x
    y := uy * 2 - 1
    r := ur
    g := ug
    b := ub
    diameter := 0 }

/-- Model of `src/main.rs` lines 86-94: the two-knee clamp chain applied to a raw
diameter value. Mirrors:
```
if diameter > 0.02 { diameter = 0.02+(diameter-0.02)/50.0; }
if diameter < 0.001 {
    diameter = diameter*10.0;
    if diameter > 0.001 { diameter = 0.001; }
}
``` -/
def clampChain (d0 : ℚ) : ℚ :=
  let d1 := if d0 > 0.02 then 0.02 + (d0 - 0.02) / 50 else d0
  if d1 < 0.001 then
    let d2 := d1 * 10
    if d2 > 0.001 then 0.001 else d2
  else d1

/-- Model of `src/main.rs` line 85 plus the clamp chain: the full
magnitude-to-diameter transform `spectrum_data[i].1.val()*0.0001`
followed by both knees. -/
def diameterTransform (m : ℚ) : ℚ :=
  clampChain (m * 0.0001)

/-- Model of `src/main.rs` lines 98-100: the wraparound loop
`while particle.y < -1.0 { particle.y += 2.0; }`. -/
def wrapY (y : ℚ) : ℚ :=
  if y < -1 then wrapY (y + 2) else y
termination_by (⌈(-1 - y) / 2⌉).toNat
decreasing_by
  have h1 : (0 : ℚ) < -1 - y := by linarith
  have h2 : (0 : ℚ) < (-1 - y) / 2 := by positivity
  have h3 : (1 : ℤ) ≤ ⌈(-1 - y) / 2⌉ := by
    exact Int.one_le_ceil_iff.mpr h2
  have h4 : (-1 - (y + 2)) / 2 = (-1 - y) / 2 - 1 := by ring
  rw [h4, Int.ceil_sub_one]
  omega

/-- Model of `src/main.rs` lines 97-100: the per-particle mutation performed by
`set_particles_with_spectrum_and_deltatime` given magnitude `m` and
`deltatime` `dt`: assign the transformed diameter, decrement `y` by
`diameter*deltatime*20.0`, then run the wraparound loop. -/
def updateParticle (m dt : ℚ) (p : Particle) : Particle :=
  let d := diameterTransform m
  { p with diameter := d, y := wrapY (p.y - d * dt * 20) }

/-- Model of `src/main.rs` lines 84-101: the loop
`for (i, particle) in &mut self.particles.iter_mut().enumerate()`,
carrying the running index `i`. The Rust code indexes `spectrum_data[i]`
(a slice of `(Frequency, FrequencyValue)` pairs, magnitude at `.1`);
an out-of-bounds index panics, which callers exclude by supplying a
spectrum at least as long as the particle list. -/
def updateParticles (spectrumData : List (ℚ × ℚ)) (dt : ℚ) :
    List Particle → ℕ → List Particle
  | [], _ => []
  | p :: ps, i =>
      updateParticle (spectrumData.getD i (0, 0)).2 dt p ::
        updateParticles spectrumData dt ps (i + 1)

/-- Model of `src/main.rs` lines 54-66: the `FillAspect` placement descriptor
built for each particle inside `update_ellipse_buffer`. -/
structure FillAspect where
  sx : ℚ
  sy : ℚ
  cx : ℚ
  cy : ℚ
  centerx : ℚ
  centery : ℚ
  resx : ℚ
  resy : ℚ
  aspect : ℚ
deriving DecidableEq, Repr

/-- Model of `src/main.rs` lines 53-71: the `EllipseDescriptor` pushed into the
ellipse buffer for each particle (sizing descriptor plus RGBA color). -/
structure EllipseDescriptor where
  sizing : FillAspect
  r : ℚ
  g : ℚ
  b : ℚ
  a : ℚ
deriving DecidableEq, Repr

/-- Model of `src/main.rs` lines 49-75: the `update_ellipse_buffer` listener body —
for every particle, one descriptor with size = diameter, center = (x, y),
the engine's current resolution, aspect 1.0 and alpha 1.0. The final
`ellipse_renderer.set_ellipse_buffer` GPU write receives this list. -/
def update_ellipse_buffer (resx resy : ℚ) (particles : List Particle) :
    List EllipseDescriptor :=
  particles.map fun particle =>
    { sizing :=
        { sx := particle.diameter
          sy := particle.diameter
          cx := particle.x
          cy := particle.y
          centerx := 0
          centery := 0
          resx := resx
          resy := resy
          aspect := 1 }
      r := particle.r
      g := particle.g
      b := particle.b
      a := 1 }

/-- Model of `src/main.rs` lines 37-44: the dynamic state of the `Constrainer`
reactive engine (`resx`, `resy`, `particles`). The external handles
(renderer, buffers) are not state — they are borrowed per call. -/
structure Constrainer where
  resx : ℚ
  resy : ℚ
  particles : List Particle
deriving Repr

/-- One invocation of the `update_ellipse_buffer` listener: the `resx`,
`resy` it was called with and the descriptor list it wrote to the GPU
buffer. -/
structure RebuildCall where
  resx : ℚ
  resy : ℚ
  buffer : List EllipseDescriptor
deriving DecidableEq, Repr

/-- Model of `src/main.rs` lines 82-103: `set_particles_with_spectrum_and_deltatime`.
Updates every particle from the spectrum and `deltatime`, then invokes
the `update_ellipse_buffer` listener once with the engine's current
`resx`, `resy` and the updated particles. Returns the new engine state
and the list of listener invocations performed. -/
def set_particles_with_spectrum_and_deltatime (c : Constrainer)
    (spectrumData : List (ℚ × ℚ)) (dt : ℚ) :
    Constrainer × List RebuildCall :=
  let newParticles := updateParticles spectrumData dt c.particles 0
  ({ c with particles := newParticles },
   [{ resx := c.resx
      resy := c.resy
      buffer := update_ellipse_buffer c.resx c.resy newParticles }])

/-- Model of `src/main.rs` line 77 (`opgenset (resx, resy)`) as used at lines
170-176: `set_resx_resy` writes both resolution fields, then reruns the
listeners depending on them; `update_ellipse_buffer` (the particle-buffer
rebuild) runs once with the new resolution. Returns the new state and
the particle-buffer listener invocations. -/
def set_resx_resy (c : Constrainer) (w h : ℚ) :
    Constrainer × List RebuildCall :=
  let c2 := { c with resx := w, resy := h }
  (c2,
   [{ resx := w
      resy := h
      buffer := update_ellipse_buffer w h c2.particles }])

/-- Model of `src/main.rs` line 30: `const PARTICLE_COUNT: usize = 2048;`. -/
def PARTICLE_COUNT : ℕ := 2048

/-- Model of `src/main.rs` line 31: `const SAMPLE_COUNT: usize = PARTICLE_COUNT*2;`. -/
def SAMPLE_COUNT : ℕ := PARTICLE_COUNT * 2

/-- Model of `src/main.rs` lines 139-143: the startup layout formula assigning the
`x` coordinate of particle `i` out of `n`:
```
if i < PARTICLE_COUNT/2 { i as f32/(PARTICLE_COUNT as f32-1.0)*-2.0 }
else { (i as f32/(PARTICLE_COUNT as f32-1.0))*-2.0+2.0 }
``` -/
def layoutX (n i : ℕ) : ℚ :=
  if i < n / 2 then
    (i : ℚ) / ((n : ℚ) - 1) * (-2)
  else
    (i : ℚ) / ((n : ℚ) - 1) * (-2) + 2

/-- Model of `src/main.rs` lines 137-145: the list of startup `x` values for `n`
particles, in index order. -/
def layoutList (n : ℕ) : List ℚ :=
  (List.range n).map (layoutX n)

/-- Outcome of the sample-index gate in the redraw handler. -/
inductive RedrawAction where
  | exitLoop
  | runUpdate
  | skipUpdate
deriving DecidableEq, Repr

/-- Model of `src/main.rs` lines 201-214: the gate in the `RedrawRequested` arm:
```
if current_sample >= samples.len() { ... Exit }
else if current_sample > SAMPLE_COUNT { ... set_particles_with_spectrum_and_deltatime(...) }
```
(otherwise neither: the frame renders without updating particles). -/
def redrawBranch (current_sample samplesLen : ℕ) : RedrawAction :=
  if current_sample ≥ samplesLen then RedrawAction.exitLoop
  else if current_sample > SAMPLE_COUNT then RedrawAction.runUpdate
  else RedrawAction.skipUpdate

/-! ### Helper lemmas -/

/-- The wraparound loop never returns a value below `-1`. -/
theorem wrapY_ge_neg_one (y : ℚ) : -1 ≤ wrapY y := by
  induction y using wrapY.induct with
  | case1 y h ih => rw [wrapY, if_pos h]; exact ih
  | case2 y h => rw [wrapY, if_neg h]; exact not_lt.mp h

/-- The wraparound loop preserves any upper bound of at least `1`
(each iteration adds `2` only while the value is below `-1`). -/
theorem wrapY_lt_one_of_lt (y : ℚ) : y < 1 → wrapY y < 1 := by
  induction y using wrapY.induct with
  | case1 y h ih =>
      intro _
      rw [wrapY, if_pos h]
      exact ih (by linarith)
  | case2 y h =>
      intro hy
      rw [wrapY, if_neg h]
      exact hy

/-- The wraparound loop body never runs when `y` is already at least `-1`. -/
theorem wrapY_eq_of_ge (y : ℚ) (h : -1 ≤ y) : wrapY y = y := by
  rw [wrapY, if_neg (not_lt.mpr h)]

/-- The clamp chain maps nonnegative raw diameters to nonnegative values. -/
theorem clampChain_nonneg (d : ℚ) (hd : 0 ≤ d) : 0 ≤ clampChain d := by
  unfold clampChain
  dsimp only
  split_ifs <;> norm_num at * <;> linarith

/-- The diameter transform maps nonnegative magnitudes to nonnegative
diameters. -/
theorem diameterTransform_nonneg (m : ℚ) (hm : 0 ≤ m) :
    0 ≤ diameterTransform m := by
  unfold diameterTransform
  exact clampChain_nonneg _ (by positivity)

/-- The per-particle update leaves `y` unchanged when `deltatime = 0` and
`y` already satisfies the lower wraparound bound. -/
theorem updateParticle_y_dt_zero (m : ℚ) (p : Particle) (h : -1 ≤ p.y) :
    (updateParticle m 0 p).y = p.y := by
  show wrapY (p.y - diameterTransform m * 0 * 20) = p.y
  rw [show p.y - diameterTransform m * 0 * 20 = p.y by ring]
  exact wrapY_eq_of_ge _ h

/-- The per-particle update assigns exactly the transformed magnitude as
the new diameter. -/
theorem updateParticle_diameter (m dt : ℚ) (p : Particle) :
    (updateParticle m dt p).diameter = diameterTransform m :=
  rfl

/-! ### Claim theorems -/

/-- C1, counterexample: as stated — "any initial y value" — the claim is
false. With initial `y = 2` and decrement `0` (magnitude `0`,
`deltatime = 0`), the wraparound loop (which only corrects values below
`-1.0`) leaves `y = 2`, which is not in `[-1.0, 1.0)`. -/
theorem C1_counterexample :
    (updateParticle 0 0
        { x := 0, y := 2, r := 0, g := 0, b := 0, diameter := 0 }).y = 2 ∧
      ¬ (updateParticle 0 0
        { x := 0, y := 2, r := 0, g := 0, b := 0, diameter := 0 }).y < 1 := by
  have h : (updateParticle 0 0
      { x := 0, y := 2, r := 0, g := 0, b := 0, diameter := 0 }).y = 2 := by
    show wrapY (2 - diameterTransform 0 * 0 * 20) = 2
    rw [show (2 : ℚ) - diameterTransform 0 * 0 * 20 = 2 by ring]
    rw [wrapY]
    norm_num
  exact ⟨h, by rw [h]; norm_num⟩

/-- C1, amended: for every particle whose `y` is below the upper bound
`1.0` (as holds for every constructed particle, whose `y` starts in
`[-1, 1)`), one call of the update rule with any nonnegative magnitude
and nonnegative `deltatime` — hence any finite nonnegative decrement
`diameter*deltatime*20`, including decrements larger than `2.0` that make
the wraparound loop add `2.0` multiple times — leaves the resulting `y`
in `[-1.0, 1.0)`. -/
theorem C1_update_y_in_range (m dt : ℚ) (p : Particle)
    (hm : 0 ≤ m) (hdt : 0 ≤ dt) (hy : p.y < 1) :
    -1 ≤ (updateParticle m dt p).y ∧ (updateParticle m dt p).y < 1 := by
  have hd : 0 ≤ diameterTransform m := diameterTransform_nonneg m hm
  have hdec : 0 ≤ diameterTransform m * dt * 20 := by positivity
  constructor
  · exact wrapY_ge_neg_one _
  · show wrapY (p.y - diameterTransform m * dt * 20) < 1
    exact wrapY_lt_one_of_lt _ (by linarith)

/-- C1, witness: magnitude `20000` and `deltatime = 100` give diameter
`0.0596` and decrement `0.0596*100*20 = 119.2 > 2.0`, exercising the
multi-iteration wraparound; the update of a particle with `y = 1/2`
lands in `[-1, 1)`. -/
theorem C1_witness :
    (0 : ℚ) ≤ 20000 ∧ (0 : ℚ) ≤ 100 ∧
      ({ x := 0, y := 1/2, r := 0, g := 0, b := 0, diameter := 0 } :
        Particle).y < 1 ∧
      (-1 ≤ (updateParticle 20000 100
          { x := 0, y := 1/2, r := 0, g := 0, b := 0, diameter := 0 }).y ∧
        (updateParticle 20000 100
          { x := 0, y := 1/2, r := 0, g := 0, b := 0, diameter := 0 }).y < 1) :=
  ⟨by norm_num, by norm_num, by norm_num,
    C1_update_y_in_range 20000 100
      { x := 0, y := 1/2, r := 0, g := 0, b := 0, diameter := 0 }
      (by norm_num) (by norm_num) (by norm_num)⟩

/-- C5: a magnitude whose raw diameter is exactly `0.02` does not trigger
the upper-knee branch, and one whose raw diameter is exactly `0.001` does
not trigger the lower-knee branch (both comparisons strict): in both
cases the raw diameter `m * 0.0001` is assigned unchanged. -/
theorem C5_knee_boundaries_strict (m : ℚ)
    (h : m * 0.0001 = 0.02 ∨ m * 0.0001 = 0.001) :
    diameterTransform m = m * 0.0001 := by
  rcases h with h | h
  · have hm : m = 200 := by linarith
    subst hm
    norm_num [diameterTransform, clampChain]
  · have hm : m = 10 := by linarith
    subst hm
    norm_num [diameterTransform, clampChain]

/-- C5, witness: magnitude `200` has raw diameter exactly `0.02` and is
assigned unchanged. -/
theorem C5_witness :
    ((200 : ℚ) * 0.0001 = 0.02 ∨ (200 : ℚ) * 0.0001 = 0.001) ∧
      diameterTransform 200 = 200 * 0.0001 :=
  ⟨Or.inl (by norm_num),
    C5_knee_boundaries_strict 200 (Or.inl (by norm_num))⟩

/-- C6: the clamp chain (upper knee then lower knee) is the identity on
every diameter value in the linear band `[0.001, 0.02]`. -/
theorem C6_clampChain_id_on_band (d : ℚ)
    (h1 : 0.001 ≤ d) (h2 : d ≤ 0.02) : clampChain d = d := by
  unfold clampChain
  dsimp only
  rw [if_neg (not_lt.mpr h2), if_neg (not_lt.mpr h1)]

/-- C6, witness: the clamp chain fixes `0.005`, a value in the linear
band (and itself an output of the transform, at magnitude `50`). -/
theorem C6_witness :
    (0.001 : ℚ) ≤ 0.005 ∧ (0.005 : ℚ) ≤ 0.02 ∧
      clampChain 0.005 = 0.005 :=
  ⟨by norm_num, by norm_num,
    C6_clampChain_id_on_band 0.005 (by norm_num) (by norm_num)⟩

/-- With at least two particles the rational denominator `n - 1` of the
layout formula is positive. -/
theorem layout_denom_pos (n : ℕ) (hn : 2 ≤ n) : (0 : ℚ) < (n : ℚ) - 1 := by
  have : (2 : ℚ) ≤ (n : ℚ) := by exact_mod_cast hn
  linarith

/-- One step of either layout ramp drops the value by exactly
`2 / (n - 1)`. -/
theorem layout_step (n i : ℕ) (hn : 2 ≤ n) :
    (i : ℚ) / ((n : ℚ) - 1) * (-2) -
        ((i : ℚ) + 1) / ((n : ℚ) - 1) * (-2) = 2 / ((n : ℚ) - 1) := by
  have hn1 := layout_denom_pos n hn
  field_simp
  ring

/-- First-half layout values lie in `(-1, 0]`. -/
theorem layout_first_half_bounds (n i : ℕ) (hn : 2 ≤ n) (hi : i < n / 2) :
    -1 < layoutX n i ∧ layoutX n i ≤ 0 := by
  have hn1 := layout_denom_pos n hn
  rw [layoutX, if_pos hi]
  constructor
  · have h2i : 2 * i + 2 ≤ n := by omega
    have h2iq : 2 * (i : ℚ) + 2 ≤ (n : ℚ) := by exact_mod_cast h2i
    have hlt : 2 * (i : ℚ) / ((n : ℚ) - 1) < 1 :=
      (div_lt_one hn1).mpr (by linarith)
    have heq : (i : ℚ) / ((n : ℚ) - 1) * (-2) =
        -(2 * (i : ℚ) / ((n : ℚ) - 1)) := by ring
    rw [heq]
    linarith
  · have hnn : (0 : ℚ) ≤ (i : ℚ) / ((n : ℚ) - 1) := by positivity
    nlinarith

/-- Second-half layout values lie in `[0, 1]`. -/
theorem layout_second_half_bounds (n i : ℕ) (hn : 2 ≤ n)
    (hi : n / 2 ≤ i) (hi2 : i < n) :
    0 ≤ layoutX n i ∧ layoutX n i ≤ 1 := by
  have hn1 := layout_denom_pos n hn
  rw [layoutX, if_neg (by omega : ¬ i < n / 2)]
  constructor
  · have h1 : (i : ℚ) ≤ (n : ℚ) - 1 := by
      have hle : (i : ℚ) + 1 ≤ (n : ℚ) := by exact_mod_cast hi2
      linarith
    have hle2 : (i : ℚ) / ((n : ℚ) - 1) ≤ 1 := (div_le_one hn1).mpr h1
    nlinarith
  · have h1 : n ≤ 2 * i + 1 := by omega
    have h1q : (n : ℚ) ≤ 2 * (i : ℚ) + 1 := by exact_mod_cast h1
    have hge : 1 ≤ 2 * (i : ℚ) / ((n : ℚ) - 1) :=
      (one_le_div hn1).mpr (by linarith)
    have heq : (i : ℚ) / ((n : ℚ) - 1) * (-2) =
        -(2 * (i : ℚ) / ((n : ℚ) - 1)) := by ring
    rw [heq]
    linarith

/-- C2, counterexample: the claim asserts `x = 2` at index `N-1`;
already at `N = 4` the last index receives
`(3/3) * -2 + 2 = 0`, not `2`. -/
theorem C2_counterexample : layoutX 4 3 = 0 ∧ layoutX 4 3 ≠ 2 := by
  constructor <;> norm_num [layoutX]

/-- C2, amended: for every particle count `N ≥ 2` the layout formula
assigns `x = 0` to index `0` and `x = 0` (not `2`) to index `N-1`; the
first half of indices is strictly decreasing from `0` toward `-1`, and
the second half is strictly decreasing (not increasing) from at most `1`
down to `0`. -/
theorem C2_layout_endpoints_and_monotone (n : ℕ) (hn : 2 ≤ n) :
    layoutX n 0 = 0 ∧ layoutX n (n - 1) = 0 ∧
      (∀ i, i + 1 < n / 2 → layoutX n (i + 1) < layoutX n i) ∧
      (∀ i, n / 2 ≤ i → i + 1 < n → layoutX n (i + 1) < layoutX n i) := by
  have hn1 := layout_denom_pos n hn
  refine ⟨?_, ?_, ?_, ?_⟩
  · rw [layoutX, if_pos (by omega : 0 < n / 2)]
    simp
  · rw [layoutX, if_neg (by omega : ¬ n - 1 < n / 2)]
    have hcast : ((n - 1 : ℕ) : ℚ) = (n : ℚ) - 1 := by
      have h1 : 1 ≤ n := by omega
      push_cast [h1]
      ring
    rw [hcast, div_self (ne_of_gt hn1)]
    ring
  · intro i hi
    have hstep := layout_step n i hn
    have hpos : (0 : ℚ) < 2 / ((n : ℚ) - 1) := by positivity
    rw [layoutX, if_pos (by omega : i + 1 < n / 2),
      layoutX, if_pos (by omega : i < n / 2)]
    push_cast
    linarith
  · intro i hi hi2
    have hstep := layout_step n i hn
    have hpos : (0 : ℚ) < 2 / ((n : ℚ) - 1) := by positivity
    rw [layoutX, if_neg (by omega : ¬ i + 1 < n / 2),
      layoutX, if_neg (by omega : ¬ i < n / 2)]
    push_cast
    linarith

/-- C2, witness: the amended statement instantiated at `N = 4`. -/
theorem C2_witness :
    2 ≤ 4 ∧
      (layoutX 4 0 = 0 ∧ layoutX 4 (4 - 1) = 0 ∧
        (∀ i, i + 1 < 4 / 2 → layoutX 4 (i + 1) < layoutX 4 i) ∧
        (∀ i, 4 / 2 ≤ i → i + 1 < 4 → layoutX 4 (i + 1) < layoutX 4 i)) :=
  ⟨by norm_num, C2_layout_endpoints_and_monotone 4 (by norm_num)⟩

/-- C3, counterexample: the claim asserts the layout values cover the
full range `[-2, 2]`; for `N = 4` the produced values are
`[0, -2/3, 2/3, 0]`, so neither `-2` nor `2` is attained. -/
theorem C3_counterexample :
    layoutList 4 = [0, -2/3, 2/3, 0] ∧
      (-2 : ℚ) ∉ layoutList 4 ∧ (2 : ℚ) ∉ layoutList 4 := by
  norm_num [layoutList, layoutX, List.range_succ]

/-- C3, amended: for every particle count `N ≥ 2` the layout values lie
in `(-1, 1]`, not `[-2, 2]`: the fold produces two ramps, the first-half
indices giving evenly spaced values in `(-1, 0]` and the second-half
indices giving evenly spaced values in `[0, 1]`, with consecutive values
inside each ramp exactly `2/(N-1)` apart. -/
theorem C3_layout_range_and_spacing (n : ℕ) (hn : 2 ≤ n) :
    (∀ i, i < n → -1 < layoutX n i ∧ layoutX n i ≤ 1) ∧
      (∀ i, i < n / 2 → layoutX n i ≤ 0) ∧
      (∀ i, n / 2 ≤ i → i < n → 0 ≤ layoutX n i) ∧
      (∀ i, i + 1 < n / 2 →
        layoutX n i - layoutX n (i + 1) = 2 / ((n : ℚ) - 1)) ∧
      (∀ i, n / 2 ≤ i → i + 1 < n →
        layoutX n i - layoutX n (i + 1) = 2 / ((n : ℚ) - 1)) := by
  refine ⟨?_, ?_, ?_, ?_, ?_⟩
  · intro i hi
    rcases lt_or_le i (n / 2) with hhalf | hhalf
    · have hb := layout_first_half_bounds n i hn hhalf
      exact ⟨hb.1, by linarith [hb.2]⟩
    · have hb := layout_second_half_bounds n i hn hhalf hi
      exact ⟨by linarith [hb.1], hb.2⟩
  · intro i hi
    exact (layout_first_half_bounds n i hn hi).2
  · intro i hi hi2
    exact (layout_second_half_bounds n i hn hi hi2).1
  · intro i hi
    have hstep := layout_step n i hn
    rw [layoutX, if_pos (by omega : i < n / 2),
      layoutX, if_pos (by omega : i + 1 < n / 2)]
    push_cast
    linarith
  · intro i hi hi2
    have hstep := layout_step n i hn
    rw [layoutX, if_neg (by omega : ¬ i < n / 2),
      layoutX, if_neg (by omega : ¬ i + 1 < n / 2)]
    push_cast
    linarith

/-- C3, witness: the amended statement instantiated at `N = 5`. -/
theorem C3_witness :
    2 ≤ 5 ∧
      ((∀ i, i < 5 → -1 < layoutX 5 i ∧ layoutX 5 i ≤ 1) ∧
        (∀ i, i < 5 / 2 → layoutX 5 i ≤ 0) ∧
        (∀ i, 5 / 2 ≤ i → i < 5 → 0 ≤ layoutX 5 i) ∧
        (∀ i, i + 1 < 5 / 2 →
          layoutX 5 i - layoutX 5 (i + 1) = 2 / ((5 : ℚ) - 1)) ∧
        (∀ i, 5 / 2 ≤ i → i + 1 < 5 →
          layoutX 5 i - layoutX 5 (i + 1) = 2 / ((5 : ℚ) - 1))) :=
  ⟨by norm_num, C3_layout_range_and_spacing 5 (by norm_num)⟩

/-- C4: starting from four particles with diameter `0` (and `y` within
the construction invariant `y ≥ -1`, as every particle made by
`Particle::new` satisfies), calling the update rule with `deltatime = 0`
and a spectrum whose four magnitudes are `[0, 50, 500, 20000]` yields
diameters `[0, 0.005, 0.0206, 0.0596]` after the clamp chain and leaves
every particle's `y` unchanged. -/
theorem C4_end_to_end (c : Constrainer) (p0 p1 p2 p3 : Particle)
    (hc : c.particles = [p0, p1, p2, p3])
    (hd0 : p0.diameter = 0) (hd1 : p1.diameter = 0)
    (hd2 : p2.diameter = 0) (hd3 : p3.diameter = 0)
    (hy0 : -1 ≤ p0.y) (hy1 : -1 ≤ p1.y)
    (hy2 : -1 ≤ p2.y) (hy3 : -1 ≤ p3.y) :
    ((set_particles_with_spectrum_and_deltatime c
        [(0, 0), (0, 50), (0, 500), (0, 20000)] 0).1.particles.map
      Particle.diameter = [0, 0.005, 0.0206, 0.0596]) ∧
      ((set_particles_with_spectrum_and_deltatime c
        [(0, 0), (0, 50), (0, 500), (0, 20000)] 0).1.particles.map
      Particle.y = [p0.y, p1.y, p2.y, p3.y]) := by
  have hparts : (set_particles_with_spectrum_and_deltatime c
      [(0, 0), (0, 50), (0, 500), (0, 20000)] 0).1.particles =
      [updateParticle 0 0 p0, updateParticle 50 0 p1,
        updateParticle 500 0 p2, updateParticle 20000 0 p3] := by
    rw [set_particles_with_spectrum_and_deltatime, hc]
    rfl
  rw [hparts]
  constructor
  · show [diameterTransform 0, diameterTransform 50,
      diameterTransform 500, diameterTransform 20000] = _
    norm_num [diameterTransform, clampChain]
  · simp only [List.map]
    rw [updateParticle_y_dt_zero 0 p0 hy0,
      updateParticle_y_dt_zero 50 p1 hy1,
      updateParticle_y_dt_zero 500 p2 hy2,
      updateParticle_y_dt_zero 20000 p3 hy3]

/-- C4, witness: the end-to-end test at the engine state of the spec's
scenario (`resx = 800`, `resy = 600`, four concrete particles with
diameter `0`). -/
theorem C4_witness :
    (({ resx := 800, resy := 600,
        particles := [{ x := 0, y := 0, r := 0, g := 0, b := 0, diameter := 0 },
          { x := -2/3, y := 0, r := 0, g := 0, b := 0, diameter := 0 },
          { x := 2/3, y := 0, r := 0, g := 0, b := 0, diameter := 0 },
          { x := 0, y := 0, r := 0, g := 0, b := 0, diameter := 0 }] } :
       Constrainer).particles =
      [{ x := 0, y := 0, r := 0, g := 0, b := 0, diameter := 0 },
        { x := -2/3, y := 0, r := 0, g := 0, b := 0, diameter := 0 },
        { x := 2/3, y := 0, r := 0, g := 0, b := 0, diameter := 0 },
        { x := 0, y := 0, r := 0, g := 0, b := 0, diameter := 0 }]) ∧
      ((set_particles_with_spectrum_and_deltatime
          { resx := 800, resy := 600,
            particles := [{ x := 0, y := 0, r := 0, g := 0, b := 0, diameter := 0 },
              { x := -2/3, y := 0, r := 0, g := 0, b := 0, diameter := 0 },
              { x := 2/3, y := 0, r := 0, g := 0, b := 0, diameter := 0 },
              { x := 0, y := 0, r := 0, g := 0, b := 0, diameter := 0 }] }
          [(0, 0), (0, 50), (0, 500), (0, 20000)] 0).1.particles.map
        Particle.diameter = [0, 0.005, 0.0206, 0.0596]) ∧
      ((set_particles_with_spectrum_and_deltatime
          { resx := 800, resy := 600,
            particles := [{ x := 0, y := 0, r := 0, g := 0, b := 0, diameter := 0 },
              { x := -2/3, y := 0, r := 0, g := 0, b := 0, diameter := 0 },
              { x := 2/3, y := 0, r := 0, g := 0, b := 0, diameter := 0 },
              { x := 0, y := 0, r := 0, g := 0, b := 0, diameter := 0 }] }
          [(0, 0), (0, 50), (0, 500), (0, 20000)] 0).1.particles.map
        Particle.y = [0, 0, 0, 0]) :=
  ⟨rfl,
    (C4_end_to_end _ _ _ _ _ rfl rfl rfl rfl rfl
      (by norm_num) (by norm_num) (by norm_num) (by norm_num)).1,
    (C4_end_to_end _ _ _ _ _ rfl rfl rfl rfl rfl
      (by norm_num) (by norm_num) (by norm_num) (by norm_num)).2⟩

/-- C7: for every caller-supplied `x` and random draws in `[0, 1)`,
`Particle::new` returns a particle with exactly the given `x`, diameter
exactly `0`, `y = draw*2 - 1` in `[-1, 1)`, and `r`, `g`, `b` each in
`[0, 1]`; the construction is a pure function of the draws (no error
conditions, no effects beyond random-number consumption). -/
theorem C7_particle_new (x uy ur ug ub : ℚ)
    (huy0 : 0 ≤ uy) (huy1 : uy < 1)
    (hur0 : 0 ≤ ur) (hur1 : ur < 1)
    (hug0 : 0 ≤ ug) (hug1 : ug < 1)
    (hub0 : 0 ≤ ub) (hub1 : ub < 1) :
    (Particle.new x uy ur ug ub).x = x ∧
      (Particle.new x uy ur ug ub).diameter = 0 ∧
      (-1 ≤ (Particle.new x uy ur ug ub).y ∧
        (Particle.new x uy ur ug ub).y < 1) ∧
      (0 ≤ (Particle.new x uy ur ug ub).r ∧
        (Particle.new x uy ur ug ub).r ≤ 1) ∧
      (0 ≤ (Particle.new x uy ur ug ub).g ∧
        (Particle.new x uy ur ug ub).g ≤ 1) ∧
      (0 ≤ (Particle.new x uy ur ug ub).b ∧
        (Particle.new x uy ur ug ub).b ≤ 1) := by
  refine ⟨rfl, rfl, ⟨?_, ?_⟩, ⟨?_, ?_⟩, ⟨?_, ?_⟩, ⟨?_, ?_⟩⟩ <;>
    simp only [Particle.new] <;> linarith

/-- C7, witness: construction at `x = 5` with all draws `1/2`. -/
theorem C7_witness :
    (0 : ℚ) ≤ 1/2 ∧ (1/2 : ℚ) < 1 ∧
      ((Particle.new 5 (1/2) (1/2) (1/2) (1/2)).x = 5 ∧
        (Particle.new 5 (1/2) (1/2) (1/2) (1/2)).diameter = 0 ∧
        (-1 ≤ (Particle.new 5 (1/2) (1/2) (1/2) (1/2)).y ∧
          (Particle.new 5 (1/2) (1/2) (1/2) (1/2)).y < 1) ∧
        (0 ≤ (Particle.new 5 (1/2) (1/2) (1/2) (1/2)).r ∧
          (Particle.new 5 (1/2) (1/2) (1/2) (1/2)).r ≤ 1) ∧
        (0 ≤ (Particle.new 5 (1/2) (1/2) (1/2) (1/2)).g ∧
          (Particle.new 5 (1/2) (1/2) (1/2) (1/2)).g ≤ 1) ∧
        (0 ≤ (Particle.new 5 (1/2) (1/2) (1/2) (1/2)).b ∧
          (Particle.new 5 (1/2) (1/2) (1/2) (1/2)).b ≤ 1)) :=
  ⟨by norm_num, by norm_num,
    C7_particle_new 5 (1/2) (1/2) (1/2) (1/2)
      (by norm_num) (by norm_num) (by norm_num) (by norm_num)
      (by norm_num) (by norm_num) (by norm_num) (by norm_num)⟩

/-- C8: after processing all particles, the update rule invokes the
particle-buffer rebuild listener exactly once, passing the engine's
current `resx` and `resy`; in particular, right after
`set_resolution(w2, h2, ...)` the rebuild triggered by the update uses
the new `(w2, h2)` for the descriptors and the buffer reflects the
updated particles. -/
theorem C8_rebuild_once_with_new_resolution (c : Constrainer)
    (w2 h2 dt : ℚ) (sd : List (ℚ × ℚ)) :
    (set_particles_with_spectrum_and_deltatime
        (set_resx_resy c w2 h2).1 sd dt).2 =
      [{ resx := w2, resy := h2,
         buffer := update_ellipse_buffer w2 h2
           (set_particles_with_spectrum_and_deltatime
             (set_resx_resy c w2 h2).1 sd dt).1.particles }] :=
  rfl

/-- The per-particle update never changes `x`, `r`, `g` or `b`, so the
enumerated update loop preserves their per-index values, for any
starting index. -/
theorem updateParticles_map_fixed (sd : List (ℚ × ℚ)) (dt : ℚ)
    (f : Particle → ℚ) (hf : ∀ m p, f (updateParticle m dt p) = f p) :
    ∀ (ps : List Particle) (j : ℕ),
      (updateParticles sd dt ps j).map f = ps.map f := by
  intro ps
  induction ps with
  | nil => intro j; rfl
  | cons p ps ih =>
      intro j
      simp only [updateParticles, List.map, hf, ih]

/-- C9: for every engine state and every call of the update rule with a
spectrum at least as long as the particle list (the in-bounds
precondition of the source's `spectrum_data[i]` indexing), the fields
`x`, `r`, `g`, `b` of every particle are unchanged by the call — only
`y` and `diameter` are mutated. -/
theorem C9_update_preserves_x_r_g_b (c : Constrainer)
    (sd : List (ℚ × ℚ)) (dt : ℚ)
    (h : c.particles.length ≤ sd.length) :
    ((set_particles_with_spectrum_and_deltatime c sd dt).1.particles.map
        Particle.x = c.particles.map Particle.x) ∧
      ((set_particles_with_spectrum_and_deltatime c sd dt).1.particles.map
        Particle.r = c.particles.map Particle.r) ∧
      ((set_particles_with_spectrum_and_deltatime c sd dt).1.particles.map
        Particle.g = c.particles.map Particle.g) ∧
      ((set_particles_with_spectrum_and_deltatime c sd dt).1.particles.map
        Particle.b = c.particles.map Particle.b) := by
  have hparts : (set_particles_with_spectrum_and_deltatime c sd dt).1.particles =
      updateParticles sd dt c.particles 0 := rfl
  rw [hparts]
  exact ⟨updateParticles_map_fixed sd dt Particle.x (fun m p => rfl) _ 0,
    updateParticles_map_fixed sd dt Particle.r (fun m p => rfl) _ 0,
    updateParticles_map_fixed sd dt Particle.g (fun m p => rfl) _ 0,
    updateParticles_map_fixed sd dt Particle.b (fun m p => rfl) _ 0⟩

/-- C9, witness: a one-particle engine with a one-entry spectrum. -/
theorem C9_witness :
    (({ resx := 800, resy := 600, particles := [{ x := 3, y := 0, r := 1/4, g := 1/3, b := 1/2, diameter := 0 }] } : Constrainer).particles.length ≤ [((0 : ℚ), (7 : ℚ))].length) ∧
      (((set_particles_with_spectrum_and_deltatime { resx := 800, resy := 600, particles := [{ x := 3, y := 0, r := 1/4, g := 1/3, b := 1/2, diameter := 0 }] } [((0 : ℚ), (7 : ℚ))] 1).1.particles.map Particle.x = [({ x := 3, y := 0, r := 1/4, g := 1/3, b := 1/2, diameter := 0 } : Particle)].map Particle.x) ∧
      ((set_particles_with_spectrum_and_deltatime { resx := 800, resy := 600, particles := [{ x := 3, y := 0, r := 1/4, g := 1/3, b := 1/2, diameter := 0 }] } [((0 : ℚ), (7 : ℚ))] 1).1.particles.map Particle.r = [({ x := 3, y := 0, r := 1/4, g := 1/3, b := 1/2, diameter := 0 } : Particle)].map Particle.r) ∧
      ((set_particles_with_spectrum_and_deltatime { resx := 800, resy := 600, particles := [{ x := 3, y := 0, r := 1/4, g := 1/3, b := 1/2, diameter := 0 }] } [((0 : ℚ), (7 : ℚ))] 1).1.particles.map Particle.g = [({ x := 3, y := 0, r := 1/4, g := 1/3, b := 1/2, diameter := 0 } : Particle)].map Particle.g) ∧
      ((set_particles_with_spectrum_and_deltatime { resx := 800, resy := 600, particles := [{ x := 3, y := 0, r := 1/4, g := 1/3, b := 1/2, diameter := 0 }] } [((0 : ℚ), (7 : ℚ))] 1).1.particles.map Particle.b = [({ x := 3, y := 0, r := 1/4, g := 1/3, b := 1/2, diameter := 0 } : Particle)].map Particle.b)) :=
  ⟨by norm_num,
    C9_update_preserves_x_r_g_b { resx := 800, resy := 600, particles := [{ x := 3, y := 0, r := 1/4, g := 1/3, b := 1/2, diameter := 0 }] } [((0 : ℚ), (7 : ℚ))] 1 (by norm_num)⟩

/-- C10: on a redraw, the spectrum computation and particle update run
if and only if the elapsed-sample index is strictly greater than
`SAMPLE_COUNT` and strictly less than the total sample count; in
particular no update occurs while the index is at most `SAMPLE_COUNT`
(equality included), and none occurs once the samples are exhausted
(the loop exits instead). -/
theorem C10_redraw_gate (cs len : ℕ) :
    redrawBranch cs len = RedrawAction.runUpdate ↔
      SAMPLE_COUNT < cs ∧ cs < len := by
  unfold redrawBranch SAMPLE_COUNT PARTICLE_COUNT
  split_ifs with h1 h2 <;> simp <;> omega

/-- C10, witness: at elapsed-sample index `5000` of `10000` total the
gate runs the update (`5000 > 4096`); the equivalence instantiates. -/
theorem C10_witness :
    redrawBranch 5000 10000 = RedrawAction.runUpdate ↔
      SAMPLE_COUNT < 5000 ∧ 5000 < 10000 :=
  C10_redraw_gate 5000 10000

end SoundGalaxy
